import Mathlib

/-!
Shallow embedding of the session/state-orchestration layer of the
newfilecraft browser application (src/App.tsx, src/types.ts).

The data model follows src/types.ts. The handlers follow the bodies of
the corresponding functions in src/App.tsx; external service calls
(virus scan, AI analysis, script generation, content conversion, the
browser atob decoder) are passed in as explicit outcome parameters,
since they live behind the external service boundary. JavaScript
number/string idioms (truthiness of an optional number, includes and
lastIndexOf and substring on strings, toLowerCase) are embedded
explicitly where the source relies on them. The browser localStorage
store is modelled as a record with the two keys the app uses, and the
React persistence effects (App.tsx lines 59 to 69) are applied after
every state update that changes their dependency, which is exactly
when React re-runs them.
-/

namespace FileCraft

/-- Settings record of a User (src/types.ts lines 46 to 49). -/
structure Settings where
  darkMode : Bool
  notifications : Bool
deriving DecidableEq

/-- Subscription tag of a User (src/types.ts line 44). -/
inductive Subscription where
  | freeTrial
  | pro
  | expired
deriving DecidableEq

/-- User record (src/types.ts lines 42 to 50). trialEndsAt is an optional
millisecond timestamp, modelled as Option Nat. -/
structure User where
  name : String
  subscription : Subscription
  trialEndsAt : Option Nat
  settings : Settings
deriving DecidableEq

/-- Scan status (src/types.ts line 35). -/
inductive ScanStatus where
  | clean
  | threat_found
deriving DecidableEq

/-- ScanResult record (src/types.ts lines 34 to 39). -/
structure ScanResult where
  status : ScanStatus
  threatName : Option String
  scannedAt : String
  engineVersion : String
deriving DecidableEq

/-- ConversionSuggestion record (src/types.ts lines 2 to 5). -/
structure ConversionSuggestion where
  format : String
  extension : String
deriving DecidableEq

/-- File-variant analysis result (src/types.ts lines 7 to 15). -/
structure FileAnalysisResult where
  fileType : String
  extension : String
  description : String
  commonUses : List String
  potentialRisks : List String
  conversionSuggestions : List ConversionSuggestion
deriving DecidableEq

/-- Image-variant analysis result (src/types.ts lines 17 to 24). -/
structure ImageAnalysisResult where
  format : String
  description : String
  tags : List String
  editSuggestions : List String
  conversionSuggestions : List ConversionSuggestion
deriving DecidableEq

/-- Tagged union AnalysisResult (src/types.ts line 26). -/
inductive AnalysisResult where
  | file (r : FileAnalysisResult)
  | image (r : ImageAnalysisResult)
deriving DecidableEq

/-- ConversionResult record returned by the external converter
(src/types.ts lines 28 to 32). -/
structure ConversionResult where
  content : String
  isBinary : Bool
  mimeType : String
deriving DecidableEq

/-- ConversionHistoryEntry record (src/types.ts lines 52 to 58). -/
structure ConversionHistoryEntry where
  id : String
  originalName : String
  fromFormat : String
  toFormat : String
  timestamp : String
deriving DecidableEq

/-- Browser File handle as the app uses it: name, MIME type and
modification time; the byte content is opaque to this layer. -/
structure FileHandle where
  name : String
  type : String
  lastModified : Nat
deriving DecidableEq

/-- The session state held by the App component: one field per useState
hook of App (src/App.tsx lines 27 to 39). Scripts are a string-to-string
record, modelled as an association list. -/
structure AppState where
  selectedFile : Option FileHandle
  analysisResult : Option AnalysisResult
  scanResult : Option ScanResult
  isLoading : Bool
  loadingMessage : String
  error : Option String
  scripts : Option (List (String × String))
  currentUser : Option User
  isProfileOpen : Bool
  conversionHistory : List ConversionHistoryEntry
  isSubscriptionModalOpen : Bool
deriving DecidableEq

/-- The two localStorage records the app reads and writes:
filecraft_user and filecraft_history (src/App.tsx lines 43 to 68).
Serialization is assumed faithful, so the records hold the values. -/
structure LocalStorage where
  userRecord : Option User
  historyRecord : Option (List ConversionHistoryEntry)
deriving DecidableEq

/-- Whole-system state: component state plus the persistent store. -/
structure Sys where
  app : AppState
  storage : LocalStorage
deriving DecidableEq

/-- Initial component state: the useState defaults of App
(src/App.tsx lines 27 to 39). -/
def initialAppState : AppState :=
  { selectedFile := none
    analysisResult := none
    scanResult := none
    isLoading := false
    loadingMessage := ""
    error := none
    scripts := none
    currentUser := none
    isProfileOpen := false
    conversionHistory := []
    isSubscriptionModalOpen := false }

/-- The React persistence effects (src/App.tsx lines 59 to 69): whenever
currentUser changes, the user record is written (or removed when the new
value is absent); whenever conversionHistory changes, the history record
is overwritten. An effect whose dependency did not change does not run. -/
def persistEffects (prev next : AppState) (st : LocalStorage) : LocalStorage :=
  let st1 := if next.currentUser = prev.currentUser then st
             else { st with userRecord := next.currentUser }
  if next.conversionHistory = prev.conversionHistory then st1
  else { st1 with historyRecord := some next.conversionHistory }

/-- Apply a component-state update and then run the persistence effects. -/
def applyApp (s : Sys) (next : AppState) : Sys :=
  { app := next, storage := persistEffects s.app next s.storage }

/-- JavaScript truthiness of an optional number: undefined and 0 are
falsy, every other value is truthy. Used by the trial-expiry check
(src/App.tsx line 48 tests user.trialEndsAt for truthiness). -/
def jsNumberTruthy : Option Nat → Bool
  | none => false
  | some v => decide (v ≠ 0)

/-- The trial-expiry normalization applied to a loaded user, named
resolveSubscriptionState in the specification. Embeds src/App.tsx
lines 48 to 50: if subscription is Free Trial, trialEndsAt is truthy
and now is past trialEndsAt, the subscription becomes Expired. -/
def resolveSubscriptionState (user : User) (now : Nat) : User :=
  if user.subscription = Subscription.freeTrial
      ∧ jsNumberTruthy user.trialEndsAt = true
      ∧ now > user.trialEndsAt.getD 0 then
    { user with subscription := Subscription.expired }
  else
    user

/-- Three days in milliseconds. The source adds three calendar days via
Date.setDate (src/App.tsx lines 178 to 179); in milliseconds that is
three times 86400000. -/
def threeDaysMs : Nat := 3 * 86400000

/-- The fresh trial user created on first login
(src/App.tsx lines 178 to 188). -/
def createTrialUser (now : Nat) : User :=
  { name := "Alex Rider"
    subscription := Subscription.freeTrial
    trialEndsAt := some (now + threeDaysMs)
    settings := { darkMode := true, notifications := false } }

/-- handleLogin (src/App.tsx lines 172 to 191): if a user record is
stored, it becomes the current user; otherwise a fresh trial user is
created. The persistence effects run on the resulting update. -/
def handleLogin (s : Sys) (now : Nat) : Sys :=
  match s.storage.userRecord with
  | some storedUser => applyApp s { s.app with currentUser := some storedUser }
  | none => applyApp s { s.app with currentUser := some (createTrialUser now) }

/-- handleLogout (src/App.tsx lines 193 to 197): sets currentUser to
null and closes the profile panel. The persistence effects then run,
because currentUser changed. -/
def handleLogout (s : Sys) : Sys :=
  applyApp s { s.app with currentUser := none, isProfileOpen := false }

/-- handleActivateSubscription (src/App.tsx lines 205 to 212): when the
code is the designated activation code and a user is logged in, the user
becomes Pro with trialEndsAt removed, the subscription modal closes and
true is returned; otherwise nothing changes and false is returned. -/
def handleActivateSubscription (s : Sys) (code : String) : Sys × Bool :=
  match s.app.currentUser with
  | some u =>
      if code = "PRO-YEARLY-2024" then
        (applyApp s { s.app with
            currentUser := some { u with subscription := Subscription.pro,
                                         trialEndsAt := none }
            isSubscriptionModalOpen := false }, true)
      else (s, false)
  | none => (s, false)

/-- handleReset (src/App.tsx lines 163 to 170): clears the selected
file, analysis result, error, scripts, scan result and the loading
flag. It touches neither currentUser nor conversionHistory, so the
persistence effects do not run. -/
def handleReset (s : Sys) : Sys :=
  applyApp s { s.app with
    selectedFile := none
    analysisResult := none
    error := none
    scripts := none
    scanResult := none
    isLoading := false }

/-- The fixed error message set when the scan or analysis step fails
(src/App.tsx line 93). -/
def processFileErrMsg : String :=
  "Failed to process file. The AI model may be unavailable or the scan failed. Please try again later."

/-- handleFileSelect (src/App.tsx lines 71 to 99), with the two external
calls passed in as outcomes: the scan outcome, and the analysis outcome
as a function of the scan status it is invoked with. The synchronous
prefix clears the previous results and sets loading; on a failure of
either call the catch branch sets the error; the finally branch clears
the loading flag and message in every case. -/
def handleFileSelect (app : AppState) (file : FileHandle)
    (scanCall : Except String ScanResult)
    (analyzeCall : ScanStatus → Except String AnalysisResult) : AppState :=
  let app0 := { app with
    selectedFile := some file
    analysisResult := none
    scanResult := none
    error := none
    scripts := none
    isLoading := true
    loadingMessage := "Scanning for threats..." }
  match scanCall with
  | Except.error _ =>
      { app0 with error := some processFileErrMsg, isLoading := false, loadingMessage := "" }
  | Except.ok scan =>
      let app1 := { app0 with
        scanResult := some scan
        loadingMessage := "Analyzing " ++ file.name ++ "..." }
      match analyzeCall scan.status with
      | Except.error _ =>
          { app1 with error := some processFileErrMsg, isLoading := false, loadingMessage := "" }
      | Except.ok result =>
          { app1 with analysisResult := some result, isLoading := false, loadingMessage := "" }

/-- Content of a downloadable Blob: decoded bytes for binary output,
the raw text otherwise. -/
inductive BlobData where
  | bytes (l : List Nat)
  | text (s : String)
deriving DecidableEq

/-- A Blob tagged with its MIME type. -/
structure Blob where
  data : BlobData
  type : String
deriving DecidableEq

/-- The client-initiated download the conversion orchestrator triggers:
the chosen filename and the materialized blob. -/
structure DownloadAction where
  filename : String
  blob : Blob
deriving DecidableEq

/-- base64ToBlob (src/App.tsx lines 16 to 24). The browser decoder atob
is external and may throw on malformed input, so it is passed in as an
Except-valued function; the charCodeAt loop turns the decoded binary
string into its byte numbers. -/
def base64ToBlob (ab : String → Except String String)
    (base64 : String) (mimeType : String) : Except String Blob :=
  match ab base64 with
  | Except.error e => Except.error e
  | Except.ok byteCharacters =>
      Except.ok { data := BlobData.bytes (byteCharacters.data.map Char.toNat)
                  type := mimeType }

/-- Blob materialization inside handleConversionSelect
(src/App.tsx lines 126 to 128): decode through base64ToBlob when the
conversion output is binary, wrap the text directly otherwise. -/
def mkConversionBlob (ab : String → Except String String)
    (cr : ConversionResult) : Except String Blob :=
  if cr.isBinary then base64ToBlob ab cr.content cr.mimeType
  else Except.ok { data := BlobData.text cr.content, type := cr.mimeType }

/-- The source format handed to script generation
(src/App.tsx line 120): fileType for the file variant, format for the
image variant. -/
def sourceFormatOf : AnalysisResult → String
  | AnalysisResult.file r => r.fileType
  | AnalysisResult.image r => r.format

/-- JavaScript String.prototype.toLowerCase restricted to the
character-wise lowering this layer needs (format tags are ASCII). -/
def jsToLowerCase (s : String) : String :=
  String.mk (s.data.map Char.toLower)

/-- The fromFormat field of a new history entry (src/App.tsx line 148):
the extension verbatim for the file variant, a dot followed by the
lowercased format for the image variant. -/
def historyFromFormat : AnalysisResult → String
  | AnalysisResult.file r => r.extension
  | AnalysisResult.image r => "." ++ jsToLowerCase r.format

/-- Index of the last occurrence of a dot in a list of characters, or
none when there is no dot. Embeds the combination of includes and
lastIndexOf on the file name (src/App.tsx line 135). -/
def lastDotIndex : List Char → Option Nat
  | [] => none
  | c :: rest =>
      match lastDotIndex rest with
      | some i => some (i + 1)
      | none => if c = '.' then some 0 else none

/-- The base name used for the download filename (src/App.tsx line 135):
the text preceding the last dot via substring(0, lastIndexOf), or the
whole name when the name contains no dot. -/
def jsBaseName (name : String) : String :=
  match lastDotIndex name.data with
  | some i => String.mk (name.data.take i)
  | none => name

/-- The conversion error message built in the catch branch
(src/App.tsx lines 155 to 156): thrown errors are modelled by their
message string. -/
def convErrMsg (e : String) : String :=
  "Failed to perform conversion. " ++ e

/-- handleConversionSelect (src/App.tsx lines 112 to 161). The external
calls are passed in as outcome functions: script generation applied to
the source and target format names, content conversion applied to the
target format name (the file bytes are opaque), and the atob decoder.
The environment supplies the freshly generated id (crypto.randomUUID)
and the current ISO timestamp. Returns the new component state and the
download action when one was triggered. A failure at any step falls to
the catch branch: error set, no scripts beyond those already stored, no
history entry; finally clears the loading flag. -/
def handleConversionSelect (app : AppState) (targetFormat : ConversionSuggestion)
    (gs : String → String → Except String (List (String × String)))
    (conv : String → Except String ConversionResult)
    (ab : String → Except String String)
    (uuid : String) (nowIso : String) : AppState × Option DownloadAction :=
  match app.analysisResult, app.selectedFile with
  | some analysisResult, some selectedFile =>
      let app0 := { app with scripts := none, error := none, isLoading := true }
      match gs (sourceFormatOf analysisResult) targetFormat.format with
      | Except.error e =>
          ({ app0 with error := some (convErrMsg e), isLoading := false }, none)
      | Except.ok generatedScripts =>
          let app1 := { app0 with scripts := some generatedScripts }
          match conv targetFormat.format with
          | Except.error e =>
              ({ app1 with error := some (convErrMsg e), isLoading := false }, none)
          | Except.ok conversionResult =>
              match mkConversionBlob ab conversionResult with
              | Except.error e =>
                  ({ app1 with error := some (convErrMsg e), isLoading := false }, none)
              | Except.ok blob =>
                  let newFileName := jsBaseName selectedFile.name ++ targetFormat.extension
                  let newHistoryEntry : ConversionHistoryEntry :=
                    { id := uuid
                      originalName := selectedFile.name
                      fromFormat := historyFromFormat analysisResult
                      toFormat := targetFormat.extension
                      timestamp := nowIso }
                  ({ app1 with
                      conversionHistory := newHistoryEntry :: app1.conversionHistory
                      isLoading := false },
                   some { filename := newFileName, blob := blob })
  | _, _ => (app, none)

/-- One resumption point of an in-flight handleFileSelect invocation.
Each invocation of handleFileSelect runs a synchronous prefix (start),
then resumes once when its scan promise settles and, after a successful
scan, once more when its analysis promise settles. The selId tags which
invocation a resumption belongs to; the source captures no such token,
which is exactly what claim C2 is about. -/
inductive SelEvent where
  | start (selId : Nat) (file : FileHandle)
  | scanDone (selId : Nat) (fileName : String) (scan : ScanResult)
  | scanFail (selId : Nat)
  | analyzeDone (selId : Nat) (result : AnalysisResult)
  | analyzeFail (selId : Nat)
deriving DecidableEq

/-- The state update each resumption performs, exactly as the source
does it (src/App.tsx lines 74 to 98): every set-state call is applied
unconditionally, with no check that the invocation is still the current
one. -/
def selStep (app : AppState) : SelEvent → AppState
  | SelEvent.start _ file =>
      { app with
        selectedFile := some file
        analysisResult := none
        scanResult := none
        error := none
        scripts := none
        isLoading := true
        loadingMessage := "Scanning for threats..." }
  | SelEvent.scanDone _ fileName scan =>
      { app with
        scanResult := some scan
        loadingMessage := "Analyzing " ++ fileName ++ "..." }
  | SelEvent.scanFail _ =>
      { app with error := some processFileErrMsg, isLoading := false, loadingMessage := "" }
  | SelEvent.analyzeDone _ result =>
      { app with analysisResult := some result, isLoading := false, loadingMessage := "" }
  | SelEvent.analyzeFail _ =>
      { app with error := some processFileErrMsg, isLoading := false, loadingMessage := "" }

/-- The invocation an event belongs to. -/
def eventSelId : SelEvent → Nat
  | SelEvent.start i _ => i
  | SelEvent.scanDone i _ _ => i
  | SelEvent.scanFail i => i
  | SelEvent.analyzeDone i _ => i
  | SelEvent.analyzeFail i => i

/-- The subtrace of events belonging to one invocation. -/
def invocationEvents (i : Nat) (tr : List SelEvent) : List SelEvent :=
  tr.filter (fun e => eventSelId e == i)

/-- A single invocation respects program order when its events form a
prefix of start, then one scan settlement, then (after a successful
scan) one analysis settlement, with the scan resumption seeing the name
of the file the invocation started with. -/
def validInvocationTrace : List SelEvent → Bool
  | [] => true
  | [SelEvent.start _ _] => true
  | [SelEvent.start _ _, SelEvent.scanFail _] => true
  | [SelEvent.start _ f, SelEvent.scanDone _ n _] => n == f.name
  | [SelEvent.start _ f, SelEvent.scanDone _ n _, SelEvent.analyzeDone _ _] => n == f.name
  | [SelEvent.start _ f, SelEvent.scanDone _ n _, SelEvent.analyzeFail _] => n == f.name
  | _ => false

/-- Run an interleaved trace of resumptions from a starting state. -/
def runSelTrace (app : AppState) (tr : List SelEvent) : AppState :=
  tr.foldl selStep app

/-! Concrete sample values used by witnesses and counterexamples. -/

/-- Default settings of a fresh trial user. -/
def sampleSettings : Settings := { darkMode := true, notifications := false }

/-- A logged-in trial user whose trial ends at time 1000. -/
def sampleTrialUser : User :=
  { name := "Alex Rider"
    subscription := Subscription.freeTrial
    trialEndsAt := some 1000
    settings := sampleSettings }

/-- A session with sampleTrialUser logged in and persisted. -/
def sampleSysLoggedIn : Sys :=
  { app := { initialAppState with currentUser := some sampleTrialUser }
    storage := { userRecord := some sampleTrialUser, historyRecord := none } }

/-- A session with nobody logged in and nothing persisted. -/
def sampleSysLoggedOut : Sys :=
  { app := initialAppState
    storage := { userRecord := none, historyRecord := none } }

/-- A Free Trial user whose trialEndsAt is the numeric value 0. -/
def zeroTrialUser : User :=
  { name := "Alex Rider"
    subscription := Subscription.freeTrial
    trialEndsAt := some 0
    settings := sampleSettings }

/-- A Pro user, as produced by a successful activation. -/
def proUserC1 : User :=
  { name := "Alex Rider"
    subscription := Subscription.pro
    trialEndsAt := none
    settings := sampleSettings }

/-- A one-entry conversion history. -/
def historyC1 : List ConversionHistoryEntry :=
  [{ id := "e1", originalName := "report.docx", fromFormat := ".docx",
     toFormat := ".pdf", timestamp := "2024-05-01T00:00:00.000Z" }]

/-- A session with the Pro user logged in and persisted together with a
one-entry history. -/
def sysC1 : Sys :=
  { app := { initialAppState with
      currentUser := some proUserC1
      isProfileOpen := true
      conversionHistory := historyC1 }
    storage := { userRecord := some proUserC1, historyRecord := some historyC1 } }

/-- First selected file of the rapid-succession scenario. -/
def fileA : FileHandle := { name := "a.txt", type := "text/plain", lastModified := 0 }

/-- Second selected file of the rapid-succession scenario. -/
def fileB : FileHandle := { name := "b.txt", type := "text/plain", lastModified := 0 }

/-- Scan result of the first selection. -/
def scanA : ScanResult :=
  { status := ScanStatus.clean, threatName := none, scannedAt := "t1", engineVersion := "v1" }

/-- Scan result of the second selection. -/
def scanB : ScanResult :=
  { status := ScanStatus.clean, threatName := none, scannedAt := "t2", engineVersion := "v1" }

/-- Analysis result of the first selection. -/
def resultA : AnalysisResult :=
  AnalysisResult.file
    { fileType := "Plain Text A", extension := ".txt", description := ""
      commonUses := [], potentialRisks := [], conversionSuggestions := [] }

/-- Analysis result of the second selection. -/
def resultB : AnalysisResult :=
  AnalysisResult.file
    { fileType := "Plain Text B", extension := ".txt", description := ""
      commonUses := [], potentialRisks := [], conversionSuggestions := [] }

/-- The rapid-succession interleaving: the second selection starts while
the analysis of the first is still pending, the second selection
completes, and only then does the analysis of the first settle. -/
def staleTrace : List SelEvent :=
  [SelEvent.start 1 fileA,
   SelEvent.scanDone 1 "a.txt" scanA,
   SelEvent.start 2 fileB,
   SelEvent.scanDone 2 "b.txt" scanB,
   SelEvent.analyzeDone 2 resultB,
   SelEvent.analyzeDone 1 resultA]

/-! Theorems settling the claims. -/

/-- Claim C3: with a user logged in, activating with the code
PRO-YEARLY-2024 returns success and a user that is Pro with trialEndsAt
absent, and any other code returns false leaving the whole system state
unchanged (the function is total, so nothing is thrown). -/
theorem handleActivateSubscription_spec (s : Sys) (u : User)
    (h : s.app.currentUser = some u) :
    (handleActivateSubscription s "PRO-YEARLY-2024").2 = true ∧
    (handleActivateSubscription s "PRO-YEARLY-2024").1.app.currentUser =
      some { u with subscription := Subscription.pro, trialEndsAt := none } ∧
    ∀ code, code ≠ "PRO-YEARLY-2024" → handleActivateSubscription s code = (s, false) := by
  refine ⟨?_, ?_, ?_⟩
  · simp [handleActivateSubscription, h]
  · simp [handleActivateSubscription, h, applyApp]
  · intro code hc
    simp [handleActivateSubscription, h, hc]

/-- Witness for claim C3 at a concrete logged-in session. -/
theorem handleActivateSubscription_spec_witness :
    (handleActivateSubscription sampleSysLoggedIn "PRO-YEARLY-2024").2 = true ∧
    (handleActivateSubscription sampleSysLoggedIn "PRO-YEARLY-2024").1.app.currentUser =
      some { sampleTrialUser with subscription := Subscription.pro, trialEndsAt := none } ∧
    handleActivateSubscription sampleSysLoggedIn "WRONG-CODE" = (sampleSysLoggedIn, false) := by
  have h := handleActivateSubscription_spec sampleSysLoggedIn sampleTrialUser rfl
  exact ⟨h.1, h.2.1, h.2.2 "WRONG-CODE" (by decide)⟩

/-- Claim C9: with nobody logged in, activation returns false and
changes nothing, even for the designated activation code. -/
theorem handleActivateSubscription_noUser (s : Sys) (code : String)
    (h : s.app.currentUser = none) :
    handleActivateSubscription s code = (s, false) := by
  simp [handleActivateSubscription, h]

/-- Witness for claim C9: the designated code with nobody logged in. -/
theorem handleActivateSubscription_noUser_witness :
    handleActivateSubscription sampleSysLoggedOut "PRO-YEARLY-2024" = (sampleSysLoggedOut, false) :=
  handleActivateSubscription_noUser sampleSysLoggedOut "PRO-YEARLY-2024" rfl

/-- Claim C4 counterexample: a Free Trial user whose trialEndsAt is the
numeric value 0 satisfies now greater than trialEndsAt at now = 1, yet
resolveSubscriptionState leaves the user unchanged instead of yielding
Expired, because the source tests trialEndsAt for JavaScript truthiness
and 0 is falsy. -/
theorem resolveSubscriptionState_zero_trial_counterexample :
    zeroTrialUser.subscription = Subscription.freeTrial ∧
    zeroTrialUser.trialEndsAt = some 0 ∧ (1 : Nat) > 0 ∧
    resolveSubscriptionState zeroTrialUser 1 = zeroTrialUser ∧
    (resolveSubscriptionState zeroTrialUser 1).subscription ≠ Subscription.expired := by
  decide

/-- Claim C4 (amended): for every user with subscription Free Trial and
a present, nonzero trialEndsAt strictly below now, the function yields
Expired; every other user is returned unchanged; and the function is
idempotent at a fixed now. -/
theorem resolveSubscriptionState_amended (u : User) (now : Nat) :
    (∀ t, u.subscription = Subscription.freeTrial → u.trialEndsAt = some t →
      t ≠ 0 → now > t →
      resolveSubscriptionState u now = { u with subscription := Subscription.expired }) ∧
    ((¬ ∃ t, u.subscription = Subscription.freeTrial ∧ u.trialEndsAt = some t ∧
        t ≠ 0 ∧ now > t) →
      resolveSubscriptionState u now = u) ∧
    resolveSubscriptionState (resolveSubscriptionState u now) now =
      resolveSubscriptionState u now := by
  refine ⟨?_, ?_, ?_⟩
  · intro t h1 h2 h3 h4
    have hc : u.subscription = Subscription.freeTrial
        ∧ jsNumberTruthy u.trialEndsAt = true
        ∧ now > u.trialEndsAt.getD 0 := by
      refine ⟨h1, ?_, ?_⟩
      · simp [jsNumberTruthy, h2, h3]
      · simp [h2, h4]
    unfold resolveSubscriptionState
    rw [if_pos hc]
  · intro hne
    unfold resolveSubscriptionState
    rw [if_neg]
    rintro ⟨hs, ht, hn⟩
    cases hu : u.trialEndsAt with
    | none => rw [hu] at ht; simp [jsNumberTruthy] at ht
    | some t =>
        rw [hu] at ht hn
        simp [jsNumberTruthy] at ht
        exact hne ⟨t, hs, hu, ht, by simpa using hn⟩
  · by_cases hc : u.subscription = Subscription.freeTrial
        ∧ jsNumberTruthy u.trialEndsAt = true
        ∧ now > u.trialEndsAt.getD 0
    · have h1 : resolveSubscriptionState u now = { u with subscription := Subscription.expired } := by
        unfold resolveSubscriptionState
        rw [if_pos hc]
      rw [h1]
      unfold resolveSubscriptionState
      rw [if_neg]
      rintro ⟨hs, -⟩
      simp at hs
    · have h1 : resolveSubscriptionState u now = u := by
        unfold resolveSubscriptionState
        rw [if_neg hc]
      rw [h1]
      exact h1

/-- Witness for the amended claim C4 at a trial user whose trial ended
at time 1000, resolved at time 2000. -/
theorem resolveSubscriptionState_amended_witness :
    resolveSubscriptionState sampleTrialUser 2000 =
      { sampleTrialUser with subscription := Subscription.expired } :=
  (resolveSubscriptionState_amended sampleTrialUser 2000).1 1000 rfl rfl
    (by decide) (by decide)

/-- Claim C8: reset clears the selected file, analysis result, scan
result, scripts, error and loading flag, and leaves the current user
and the conversion history unchanged both in memory and in the
persisted store. -/
theorem handleReset_spec (s : Sys) :
    (handleReset s).app.selectedFile = none ∧
    (handleReset s).app.analysisResult = none ∧
    (handleReset s).app.scanResult = none ∧
    (handleReset s).app.scripts = none ∧
    (handleReset s).app.error = none ∧
    (handleReset s).app.isLoading = false ∧
    (handleReset s).app.currentUser = s.app.currentUser ∧
    (handleReset s).app.conversionHistory = s.app.conversionHistory ∧
    (handleReset s).storage = s.storage := by
  simp [handleReset, applyApp, persistEffects]

/-- Claim C1 (code bug): logging out removes the persisted user record,
because the persistence effect re-runs when currentUser becomes absent
and removes the filecraft_user key; a subsequent login therefore
creates a fresh three-day trial user instead of restoring the Pro user
that was logged in before. The history record is left unchanged. This
contradicts the comment at src/App.tsx line 194, which states that user
data is kept in localStorage on logout. -/
theorem handleLogout_deletes_persisted_user :
    (handleLogout sysC1).app.currentUser = none ∧
    sysC1.storage.userRecord = some proUserC1 ∧
    (handleLogout sysC1).storage.userRecord = none ∧
    (handleLogout sysC1).storage.historyRecord = sysC1.storage.historyRecord ∧
    (handleLogin (handleLogout sysC1) 1714521600000).app.currentUser =
      some (createTrialUser 1714521600000) ∧
    createTrialUser 1714521600000 ≠ proUserC1 := by
  decide

/-- Claim C2 (code bug): in the rapid-succession interleaving, each
invocation respects program order, the second selection is the current
one at the end of the trace, yet the stored AnalysisResult is the one
belonging to the superseded first selection, because every resumption
mutates state unconditionally: the source has no generation token or
staleness check. -/
theorem staleSelection_overwrites_state :
    validInvocationTrace (invocationEvents 1 staleTrace) = true ∧
    validInvocationTrace (invocationEvents 2 staleTrace) = true ∧
    staleTrace.map eventSelId = [1, 1, 2, 2, 2, 1] ∧
    (runSelTrace initialAppState staleTrace).selectedFile = some fileB ∧
    (runSelTrace initialAppState staleTrace).analysisResult = some resultA ∧
    resultA ≠ resultB := by
  decide

/-- Claim C7: when the scan call fails, the error is set, loading is
cleared, and both the scan result and the analysis result remain
cleared; when the scan succeeds and the analysis call fails, the stored
scan result is retained while the analysis result remains cleared, with
the same error and loading behaviour. -/
theorem handleFileSelect_failure_spec (app : AppState) (file : FileHandle)
    (scanCall : Except String ScanResult)
    (analyzeCall : ScanStatus → Except String AnalysisResult) :
    (∀ e, scanCall = Except.error e →
      (handleFileSelect app file scanCall analyzeCall).error = some processFileErrMsg ∧
      (handleFileSelect app file scanCall analyzeCall).isLoading = false ∧
      (handleFileSelect app file scanCall analyzeCall).scanResult = none ∧
      (handleFileSelect app file scanCall analyzeCall).analysisResult = none) ∧
    (∀ scan e, scanCall = Except.ok scan → analyzeCall scan.status = Except.error e →
      (handleFileSelect app file scanCall analyzeCall).error = some processFileErrMsg ∧
      (handleFileSelect app file scanCall analyzeCall).isLoading = false ∧
      (handleFileSelect app file scanCall analyzeCall).scanResult = some scan ∧
      (handleFileSelect app file scanCall analyzeCall).analysisResult = none) := by
  constructor
  · intro e he
    subst he
    simp [handleFileSelect]
  · intro scan e hs ha
    subst hs
    simp [handleFileSelect, ha]

/-- Witness for claim C7: a failing scan leaves no scan result, and a
failing analysis after a successful scan retains the scan result while
producing no analysis result. -/
theorem handleFileSelect_failure_spec_witness :
    (handleFileSelect initialAppState fileA (Except.error "scan down")
        (fun _ => Except.ok resultA)).scanResult = none ∧
    (handleFileSelect initialAppState fileA (Except.ok scanA)
        (fun _ => Except.error "ai down")).scanResult = some scanA ∧
    (handleFileSelect initialAppState fileA (Except.ok scanA)
        (fun _ => Except.error "ai down")).analysisResult = none := by
  refine ⟨?_, ?_, ?_⟩
  · exact ((handleFileSelect_failure_spec initialAppState fileA (Except.error "scan down")
      (fun _ => Except.ok resultA)).1 "scan down" rfl).2.2.1
  · exact ((handleFileSelect_failure_spec initialAppState fileA (Except.ok scanA)
      (fun _ => Except.error "ai down")).2 scanA "ai down" rfl rfl).2.2.1
  · exact ((handleFileSelect_failure_spec initialAppState fileA (Except.ok scanA)
      (fun _ => Except.error "ai down")).2 scanA "ai down" rfl rfl).2.2.2

/-! Sample values for the conversion claims. -/

/-- The PDF target suggestion of the worked scenario. -/
def tfPdf : ConversionSuggestion := { format := "PDF", extension := ".pdf" }

/-- File-variant analysis of report.docx. -/
def arDocx : AnalysisResult :=
  AnalysisResult.file
    { fileType := "Word Document", extension := ".docx", description := ""
      commonUses := [], potentialRisks := [], conversionSuggestions := [tfPdf] }

/-- Image-variant analysis of a PNG image. -/
def arPng : AnalysisResult :=
  AnalysisResult.image
    { format := "PNG", description := "", tags := [], editSuggestions := []
      conversionSuggestions := [tfPdf] }

/-- The selected file of the worked scenario. -/
def sfReport : FileHandle :=
  { name := "report.docx", type := "application/msword", lastModified := 0 }

/-- A selected PNG image. -/
def sfPhoto : FileHandle := { name := "photo.png", type := "image/png", lastModified := 0 }

/-- Session state ready to convert report.docx. -/
def appConv : AppState :=
  { initialAppState with analysisResult := some arDocx, selectedFile := some sfReport }

/-- Session state ready to convert photo.png. -/
def appImg : AppState :=
  { initialAppState with analysisResult := some arPng, selectedFile := some sfPhoto }

/-- A script-generation outcome that succeeds. -/
def gsOk : String → String → Except String (List (String × String)) :=
  fun _ _ => Except.ok [("python", "convert()")]

/-- A script-generation outcome that fails. -/
def gsBad : String → String → Except String (List (String × String)) :=
  fun _ _ => Except.error "service unavailable"

/-- A content-conversion outcome that succeeds with text output. -/
def convOk : String → Except String ConversionResult :=
  fun _ => Except.ok { content := "pdfdata", isBinary := false, mimeType := "application/pdf" }

/-- An atob decoder that succeeds on every input. -/
def abId : String → Except String String := fun s => Except.ok s

/-- Claim C5: a fully successful conversion appends exactly one history
entry, prepended, with fromFormat the native format tag of the analysis
result, toFormat the target extension, the supplied timestamp and the
supplied fresh id; a failure at script generation, content conversion
or blob materialization leaves the history unchanged. -/
theorem handleConversionSelect_history_spec
    (app : AppState) (tf : ConversionSuggestion)
    (gs : String → String → Except String (List (String × String)))
    (conv : String → Except String ConversionResult)
    (ab : String → Except String String) (uuid nowIso : String)
    (ar : AnalysisResult) (sf : FileHandle)
    (har : app.analysisResult = some ar) (hsf : app.selectedFile = some sf) :
    (∀ scripts cr blob,
      gs (sourceFormatOf ar) tf.format = Except.ok scripts →
      conv tf.format = Except.ok cr →
      mkConversionBlob ab cr = Except.ok blob →
      (handleConversionSelect app tf gs conv ab uuid nowIso).1.conversionHistory =
        { id := uuid, originalName := sf.name, fromFormat := historyFromFormat ar,
          toFormat := tf.extension, timestamp := nowIso } :: app.conversionHistory) ∧
    (∀ e, gs (sourceFormatOf ar) tf.format = Except.error e →
      (handleConversionSelect app tf gs conv ab uuid nowIso).1.conversionHistory =
        app.conversionHistory) ∧
    (∀ scripts e, gs (sourceFormatOf ar) tf.format = Except.ok scripts →
      conv tf.format = Except.error e →
      (handleConversionSelect app tf gs conv ab uuid nowIso).1.conversionHistory =
        app.conversionHistory) ∧
    (∀ scripts cr e, gs (sourceFormatOf ar) tf.format = Except.ok scripts →
      conv tf.format = Except.ok cr →
      mkConversionBlob ab cr = Except.error e →
      (handleConversionSelect app tf gs conv ab uuid nowIso).1.conversionHistory =
        app.conversionHistory) := by
  refine ⟨?_, ?_, ?_, ?_⟩
  · intro scripts cr blob h1 h2 h3
    simp [handleConversionSelect, har, hsf, h1, h2, h3]
  · intro e h1
    simp [handleConversionSelect, har, hsf, h1]
  · intro scripts e h1 h2
    simp [handleConversionSelect, har, hsf, h1, h2]
  · intro scripts cr e h1 h2 h3
    simp [handleConversionSelect, har, hsf, h1, h2, h3]

/-- Witness for claim C5: the worked docx-to-pdf scenario appends the
expected entry to an empty history, and a failing script generation
appends nothing. -/
theorem handleConversionSelect_history_spec_witness :
    (handleConversionSelect appConv tfPdf gsOk convOk abId "id-1" "2024-05-01T00:00:00.000Z").1.conversionHistory =
      [{ id := "id-1", originalName := "report.docx", fromFormat := ".docx",
         toFormat := ".pdf", timestamp := "2024-05-01T00:00:00.000Z" }] ∧
    (handleConversionSelect appConv tfPdf gsBad convOk abId "id-1" "2024-05-01T00:00:00.000Z").1.conversionHistory = [] := by
  have h := handleConversionSelect_history_spec appConv tfPdf gsOk convOk abId
    "id-1" "2024-05-01T00:00:00.000Z" arDocx sfReport rfl rfl
  have hb := handleConversionSelect_history_spec appConv tfPdf gsBad convOk abId
    "id-1" "2024-05-01T00:00:00.000Z" arDocx sfReport rfl rfl
  constructor
  · have hs := h.1 [("python", "convert()")]
      { content := "pdfdata", isBinary := false, mimeType := "application/pdf" }
      { data := BlobData.text "pdfdata", type := "application/pdf" } rfl rfl rfl
    exact hs.trans (by decide)
  · have hf := hb.2.1 "service unavailable" rfl
    exact hf.trans (by decide)

/-- Claim C10: under a successful conversion, the freshly prepended
history entry carries fromFormat equal to a dot followed by the
lowercased format when the analysis result is the image variant, and
the extension field verbatim when it is the file variant. -/
theorem handleConversionSelect_fromFormat_variants
    (app : AppState) (tf : ConversionSuggestion)
    (gs : String → String → Except String (List (String × String)))
    (conv : String → Except String ConversionResult)
    (ab : String → Except String String) (uuid nowIso : String)
    (ar : AnalysisResult) (sf : FileHandle)
    (har : app.analysisResult = some ar) (hsf : app.selectedFile = some sf)
    (scripts : List (String × String)) (cr : ConversionResult) (blob : Blob)
    (h1 : gs (sourceFormatOf ar) tf.format = Except.ok scripts)
    (h2 : conv tf.format = Except.ok cr)
    (h3 : mkConversionBlob ab cr = Except.ok blob) :
    (∀ r, ar = AnalysisResult.image r →
      (handleConversionSelect app tf gs conv ab uuid nowIso).1.conversionHistory.head? =
        some { id := uuid, originalName := sf.name,
               fromFormat := "." ++ jsToLowerCase r.format,
               toFormat := tf.extension, timestamp := nowIso }) ∧
    (∀ r, ar = AnalysisResult.file r →
      (handleConversionSelect app tf gs conv ab uuid nowIso).1.conversionHistory.head? =
        some { id := uuid, originalName := sf.name,
               fromFormat := r.extension,
               toFormat := tf.extension, timestamp := nowIso }) := by
  constructor
  · intro r hr
    subst hr
    simp [handleConversionSelect, har, hsf, h1, h2, h3, historyFromFormat]
  · intro r hr
    subst hr
    simp [handleConversionSelect, har, hsf, h1, h2, h3, historyFromFormat]

/-- Witness for claim C10: converting the PNG image yields fromFormat
.png, and converting the docx file yields fromFormat .docx verbatim. -/
theorem handleConversionSelect_fromFormat_variants_witness :
    (handleConversionSelect appImg tfPdf gsOk convOk abId "id-2" "ts").1.conversionHistory.head? =
      some { id := "id-2", originalName := "photo.png", fromFormat := ".png",
             toFormat := ".pdf", timestamp := "ts" } ∧
    (handleConversionSelect appConv tfPdf gsOk convOk abId "id-3" "ts").1.conversionHistory.head? =
      some { id := "id-3", originalName := "report.docx", fromFormat := ".docx",
             toFormat := ".pdf", timestamp := "ts" } := by
  have hi := handleConversionSelect_fromFormat_variants appImg tfPdf gsOk convOk abId
    "id-2" "ts" arPng sfPhoto rfl rfl [("python", "convert()")]
    { content := "pdfdata", isBinary := false, mimeType := "application/pdf" }
    { data := BlobData.text "pdfdata", type := "application/pdf" } rfl rfl rfl
  have hf := handleConversionSelect_fromFormat_variants appConv tfPdf gsOk convOk abId
    "id-3" "ts" arDocx sfReport rfl rfl [("python", "convert()")]
    { content := "pdfdata", isBinary := false, mimeType := "application/pdf" }
    { data := BlobData.text "pdfdata", type := "application/pdf" } rfl rfl rfl
  constructor
  · have := hi.1 { format := "PNG", description := "", tags := [], editSuggestions := []
                   conversionSuggestions := [tfPdf] } rfl
    exact this.trans (by decide)
  · have := hf.2 { fileType := "Word Document", extension := ".docx", description := ""
                   commonUses := [], potentialRisks := [], conversionSuggestions := [tfPdf] } rfl
    exact this.trans (by decide)

/-- A list of characters that contains no dot has no last dot index. -/
theorem lastDotIndex_eq_none_of_not_mem (l : List Char) (h : ¬ ('.' ∈ l)) :
    lastDotIndex l = none := by
  induction l with
  | nil => rfl
  | cons c rest ih =>
      have hc : ¬ (c = '.') := by
        intro hce
        exact h (by simp [hce])
      have hr : ¬ ('.' ∈ rest) := by
        intro hre
        exact h (by simp [hre])
      simp only [lastDotIndex, ih hr]
      exact if_neg hc

/-- The last dot of a list that ends in a dot-free tail after a dot sits
exactly at the end of the prefix. -/
theorem lastDotIndex_append_dot (pre suf : List Char) (h : ¬ ('.' ∈ suf)) :
    lastDotIndex (pre ++ '.' :: suf) = some pre.length := by
  induction pre with
  | nil =>
      simp [lastDotIndex, lastDotIndex_eq_none_of_not_mem suf h]
  | cons c rest ih =>
      simp [lastDotIndex, ih]

/-- jsBaseName of a name without a dot is the name itself. -/
theorem jsBaseName_no_dot (name : String) (h : ¬ ('.' ∈ name.data)) :
    jsBaseName name = name := by
  unfold jsBaseName
  rw [lastDotIndex_eq_none_of_not_mem name.data h]

/-- jsBaseName of a name that decomposes as a prefix, a dot and a
dot-free suffix is the prefix. -/
theorem jsBaseName_split (name : String) (pre suf : List Char)
    (hd : name.data = pre ++ '.' :: suf) (h : ¬ ('.' ∈ suf)) :
    jsBaseName name = String.mk pre := by
  unfold jsBaseName
  rw [hd, lastDotIndex_append_dot pre suf h]
  show String.mk (List.take pre.length (pre ++ '.' :: suf)) = String.mk pre
  rw [List.take_left]

/-- Claim C6: for every selected file name and target format, a
successful conversion downloads under the original base name
concatenated with the target extension, where the base name is the text
preceding the last dot, or the whole name when the name contains no
dot. -/
theorem handleConversionSelect_download_filename
    (app : AppState) (tf : ConversionSuggestion)
    (gs : String → String → Except String (List (String × String)))
    (conv : String → Except String ConversionResult)
    (ab : String → Except String String) (uuid nowIso : String)
    (ar : AnalysisResult) (sf : FileHandle)
    (har : app.analysisResult = some ar) (hsf : app.selectedFile = some sf)
    (scripts : List (String × String)) (cr : ConversionResult) (blob : Blob)
    (h1 : gs (sourceFormatOf ar) tf.format = Except.ok scripts)
    (h2 : conv tf.format = Except.ok cr)
    (h3 : mkConversionBlob ab cr = Except.ok blob) :
    (handleConversionSelect app tf gs conv ab uuid nowIso).2 =
      some { filename := jsBaseName sf.name ++ tf.extension, blob := blob } ∧
    ((¬ ('.' ∈ sf.name.data)) → jsBaseName sf.name = sf.name) ∧
    (∀ pre suf, sf.name.data = pre ++ '.' :: suf → (¬ ('.' ∈ suf)) →
      jsBaseName sf.name = String.mk pre) := by
  refine ⟨?_, ?_, ?_⟩
  · simp [handleConversionSelect, har, hsf, h1, h2, h3]
  · intro h
    exact jsBaseName_no_dot sf.name h
  · intro pre suf hd h
    exact jsBaseName_split sf.name pre suf hd h

/-- Witness for claim C6: report.docx converted to the PDF suggestion
downloads as report.pdf. -/
theorem handleConversionSelect_download_filename_witness :
    (handleConversionSelect appConv tfPdf gsOk convOk abId "id-4" "ts").2 =
      some { filename := "report.pdf"
             blob := { data := BlobData.text "pdfdata", type := "application/pdf" } } := by
  have h := handleConversionSelect_download_filename appConv tfPdf gsOk convOk abId
    "id-4" "ts" arDocx sfReport rfl rfl [("python", "convert()")]
    { content := "pdfdata", isBinary := false, mimeType := "application/pdf" }
    { data := BlobData.text "pdfdata", type := "application/pdf" } rfl rfl rfl
  exact h.1.trans (by decide)

end FileCraft
